import Mathlib

/-!
Verification of the dlite delegate HTTP client (`src/delegate/http.go`).

The Go code is shallowly embedded: one request/response cycle (`do`) becomes
the pure function `doCall` over an explicit attempt environment, the retry
loop (`retry`) becomes a structurally recursive function over a finite list
of attempt environments (the model's fuel) together with an abstract backoff
stream, and the five protocol endpoints become functions that either route
through `retry` or call `doCall` exactly once, mirroring the Go methods.
-/

namespace Delegate

/-- An HTTP response as seen by the client: status code and (full) body text.
Models the relevant fields of Go's `*http.Response` (the body is modelled as
the byte string that `io.ReadAll` would return). -/
structure Response where
  statusCode : Nat
  body : String
deriving Repr, DecidableEq

/-- An outgoing HTTP request as built by `do`: method, full URL, body bytes
and the headers added via `req.Header.Add`. -/
structure Request where
  method : String
  url : String
  body : String
  headers : List (String × String)
deriving Repr, DecidableEq

/-- Outcome of `p.Client.Do(req)`.  With the client's `CheckRedirect`
returning `http.ErrUseLastResponse`, a non-nil response together with a
non-nil error cannot occur, so the outcome is either a response or a
transport error with no response. -/
inductive NetOutcome where
  | ok (res : Response)
  | fail (err : String)
deriving Repr

/-- The environment of one attempt: every external effect `do` performs,
made explicit.  `encode` is the result of `json.NewEncoder(&buf).Encode(in)`
(on error nothing has been written to the buffer, so the body stays empty);
`newReqErr` a possible `http.NewRequest` failure; `token` the result of
`p.AccountTokenCache.Get()`; `net` the transport; `readErr` a possible
`io.ReadAll` failure; `unmarshal` the result of `json.Unmarshal` on the body
(`outOnDecodeErr` abstracts the partially-written output value Go may leave
behind on a failed unmarshal); `ctxErr` is the value of `ctx.Err()` observed
by the retry loop right after this attempt. -/
structure AttemptEnv where
  encode : Except String String
  newReqErr : Option String
  token : Except String String
  net : Request → NetOutcome
  readErr : Option String
  unmarshal : String → Except String String
  outOnDecodeErr : String
  ctxErr : Option String

/-- Result of one `do` call.  `res`/`err` are the two Go return values;
`sent` is the request handed to `p.Client.Do` (`none` when no network
request was sent); `readFull` records whether `io.ReadAll` ran on the body
(the deferred bounded 4096-byte drain and `Body.Close`, pure
connection-reuse bookkeeping with no effect on the returned values, are not
modelled); `outFinal` is the final contents of the caller's output value. -/
structure DoResult where
  res : Option Response
  err : Option String
  sent : Option Request
  readFull : Bool
  outFinal : String
deriving Repr, DecidableEq

/-- Go's `http.StatusText`: the standard reason phrase for a status code,
`""` for unknown codes. -/
def statusText : Nat → String
  | 100 => "Continue"
  | 101 => "Switching Protocols"
  | 102 => "Processing"
  | 103 => "Early Hints"
  | 200 => "OK"
  | 201 => "Created"
  | 202 => "Accepted"
  | 203 => "Non-Authoritative Information"
  | 204 => "No Content"
  | 205 => "Reset Content"
  | 206 => "Partial Content"
  | 207 => "Multi-Status"
  | 208 => "Already Reported"
  | 226 => "IM Used"
  | 300 => "Multiple Choices"
  | 301 => "Moved Permanently"
  | 302 => "Found"
  | 303 => "See Other"
  | 304 => "Not Modified"
  | 305 => "Use Proxy"
  | 307 => "Temporary Redirect"
  | 308 => "Permanent Redirect"
  | 400 => "Bad Request"
  | 401 => "Unauthorized"
  | 402 => "Payment Required"
  | 403 => "Forbidden"
  | 404 => "Not Found"
  | 405 => "Method Not Allowed"
  | 406 => "Not Acceptable"
  | 407 => "Proxy Authentication Required"
  | 408 => "Request Timeout"
  | 409 => "Conflict"
  | 410 => "Gone"
  | 411 => "Length Required"
  | 412 => "Precondition Failed"
  | 413 => "Request Entity Too Large"
  | 414 => "Request URI Too Long"
  | 415 => "Unsupported Media Type"
  | 416 => "Requested Range Not Satisfiable"
  | 417 => "Expectation Failed"
  | 418 => "I\x27m a teapot"
  | 421 => "Misdirected Request"
  | 422 => "Unprocessable Entity"
  | 423 => "Locked"
  | 424 => "Failed Dependency"
  | 425 => "Too Early"
  | 426 => "Upgrade Required"
  | 428 => "Precondition Required"
  | 429 => "Too Many Requests"
  | 431 => "Request Header Fields Too Large"
  | 451 => "Unavailable For Legal Reasons"
  | 500 => "Internal Server Error"
  | 501 => "Not Implemented"
  | 502 => "Bad Gateway"
  | 503 => "Service Unavailable"
  | 504 => "Gateway Timeout"
  | 505 => "HTTP Version Not Supported"
  | 506 => "Variant Also Negotiates"
  | 507 => "Insufficient Storage"
  | 508 => "Loop Detected"
  | 510 => "Not Extended"
  | 511 => "Network Authentication Required"
  | _ => ""

/-- The configuration of `HTTPClient` that the request path depends on. -/
structure HTTPClient where
  endpoint : String
  accountID : String

/-- Embedding of `(p *HTTPClient) do(ctx, path, method, in, out)`.
`hasIn` models `in != nil`, `outReq` models `out != nil`, `outInit` the
contents of the caller's output value before the call. -/
def doCall (p : HTTPClient) (path method : String) (hasIn outReq : Bool)
    (outInit : String) (env : AttemptEnv) : DoResult :=
  let buf : String := if hasIn then (match env.encode with
    | .ok s => s
    | .error _ => "") else ""
  match env.newReqErr with
  | some e => { res := none, err := some e, sent := none, readFull := false,
                outFinal := outInit }
  | none =>
    match env.token with
    | .error e => { res := none, err := some e, sent := none,
                    readFull := false, outFinal := outInit }
    | .ok token =>
      let req : Request :=
        { method := method, url := p.endpoint ++ path, body := buf,
          headers := [("Authorization", "Delegate " ++ token),
                      ("Content-Type", "application/json")] }
      match env.net req with
      | .fail e => { res := none, err := some e, sent := some req,
                     readFull := false, outFinal := outInit }
      | .ok res =>
        if res.statusCode == 204 then
          { res := some res, err := none, sent := some req,
            readFull := false, outFinal := outInit }
        else
          match env.readErr with
          | some e => { res := some res, err := some e, sent := some req,
                        readFull := true, outFinal := outInit }
          | none =>
            let body := res.body
            if res.statusCode > 299 then
              if body.length != 0 then
                { res := some res, err := some body, sent := some req,
                  readFull := true, outFinal := outInit }
              else
                { res := some res, err := some (statusText res.statusCode),
                  sent := some req, readFull := true, outFinal := outInit }
            else if !outReq then
              { res := some res, err := none, sent := some req,
                readFull := true, outFinal := outInit }
            else
              match env.unmarshal body with
              | .ok v => { res := some res, err := none, sent := some req,
                           readFull := true, outFinal := v }
              | .error e => { res := some res, err := some e,
                              sent := some req, readFull := true,
                              outFinal := env.outOnDecodeErr }

/-- One answer of `b.NextBackOff()`: either `backoff.Stop` or a wait
duration (nanoseconds). -/
inductive BackoffStep where
  | stop
  | wait (d : Nat)
deriving Repr, DecidableEq

/-- `registerTimeout = 30 * time.Second`, in seconds. -/
def registerTimeout : Nat := 30

/-- `taskEventsTimeout = 60 * time.Second`, in seconds. -/
def taskEventsTimeout : Nat := 60

/-- Embedding of `createBackoff(ctx, maxElapsedTime)`: an exponential
backoff capped by the elapsed-time ceiling `maxElapsedTime`.  The concrete
durations produced by `NextBackOff` depend on real time and randomized
jitter, so the answer stream is kept abstract: `next n` is the value the
`n`-th call to `NextBackOff` returns. -/
structure BackoffCtx where
  maxElapsedTime : Nat
  next : Nat → BackoffStep

def createBackoff (maxElapsedTime : Nat) (next : Nat → BackoffStep) :
    BackoffCtx :=
  { maxElapsedTime := maxElapsedTime, next := next }

/-- Result of the retry loop.  `attempts` counts the calls to `do`;
`sents` has one entry per attempt, the request that attempt sent (if any);
`res`/`err` are the two Go return values; `outFinal` the final contents of
the caller's output value. -/
structure RetryResult where
  attempts : Nat
  res : Option Response
  err : Option String
  sents : List (Option Request)
  outFinal : String
deriving Repr, DecidableEq

/-- Embedding of `(p *HTTPClient) retry(ctx, path, method, in, out, b)`.
Each loop iteration consumes one `AttemptEnv` from `envs` (the list is the
model's fuel: `none` means the loop is still running when the supplied
environments run out) and one answer `boff 0` of `NextBackOff`.  The loop:
run `do`; if `ctx.Err()` is non-nil return `(res, ctxErr)`; ask for the
next backoff; if a response arrived with status `> 501`, or no response
arrived and the error is non-nil, then return `(nil, err)` on `Stop` and
otherwise sleep and loop; in every other case return `(res, err)`. -/
def retry (p : HTTPClient) (path method : String) (hasIn outReq : Bool)
    (outInit : String) (envs : List AttemptEnv) (boff : Nat → BackoffStep) :
    Option RetryResult :=
  match envs with
  | [] => none
  | env :: rest =>
    let d := doCall p path method hasIn outReq outInit env
    match env.ctxErr with
    | some ctxErr =>
      some { attempts := 1, res := d.res, err := some ctxErr,
             sents := [d.sent], outFinal := d.outFinal }
    | none =>
      let duration := boff 0
      let retryOrStop : Option RetryResult :=
        match duration with
        | .stop => some { attempts := 1, res := none, err := d.err,
                          sents := [d.sent], outFinal := d.outFinal }
        | .wait _ =>
          match retry p path method hasIn outReq d.outFinal rest
              (fun n => boff (n + 1)) with
          | none => none
          | some rr => some { attempts := rr.attempts + 1, res := rr.res,
                              err := rr.err, sents := d.sent :: rr.sents,
                              outFinal := rr.outFinal }
      match d.res with
      | some res =>
        if res.statusCode > 501 then retryOrStop
        else some { attempts := 1, res := d.res, err := d.err,
                    sents := [d.sent], outFinal := d.outFinal }
      | none =>
        match d.err with
        | some _ => retryOrStop
        | none => some { attempts := 1, res := d.res, err := d.err,
                         sents := [d.sent], outFinal := d.outFinal }

/-- Path templates from `http.go`, with `fmt.Sprintf` applied. -/
def registerEndpoint (accountID : String) : String :=
  "/api/agent/delegates/register?accountId=" ++ accountID

def heartbeatEndpoint (accountID : String) : String :=
  "/api/agent/delegates/heartbeat-with-polling?accountId=" ++ accountID

def taskPollEndpoint (id accountID : String) : String :=
  "/api/agent/delegates/" ++ id ++ "/task-events?accountId=" ++ accountID

def taskAcquireEndpoint (delegateID taskID accountID instanceID : String) :
    String :=
  "/api/agent/v2/delegates/" ++ delegateID ++ "/tasks/" ++ taskID ++
    "/acquire?accountId=" ++ accountID ++ "&delegateInstanceId=" ++ instanceID

def taskStatusEndpoint (taskID delegateID accountID : String) : String :=
  "/api/agent/v2/tasks/" ++ taskID ++ "/delegates/" ++ delegateID ++
    "?accountId=" ++ accountID

/-- What a protocol endpoint returns: `resp` is the pointer the Go method
returns (`none` models a nil pointer, `some s` a non-nil struct holding
`s`); `err` the returned error; `attempts` and `sents` instrument how many
`do` calls were made and what they sent; `ceiling` the `maxElapsedTime` of
the backoff the method built (`none` when it did not route through
`retry`). -/
structure EndpointResult where
  resp : Option String
  err : Option String
  attempts : Nat
  sents : List (Option Request)
  ceiling : Option Nat
deriving Repr, DecidableEq

/-- `Register`: allocates a fresh `RegisterResponse` (zero value, modelled
`""`), then `retry` with POST and `createBackoff(ctx, registerTimeout)`,
returning the allocated struct unconditionally. -/
def Register (p : HTTPClient) (envs : List AttemptEnv)
    (next : Nat → BackoffStep) : Option EndpointResult :=
  let resp := ""
  let path := registerEndpoint p.accountID
  let b := createBackoff registerTimeout next
  match retry p path "POST" true true resp envs b.next with
  | none => none
  | some rr => some { resp := some rr.outFinal, err := rr.err,
                      attempts := rr.attempts, sents := rr.sents,
                      ceiling := some b.maxElapsedTime }

/-- `Heartbeat`: a single `do` with POST, no output value, no retry. -/
def Heartbeat (p : HTTPClient) (envs : List AttemptEnv) :
    Option EndpointResult :=
  match envs with
  | [] => none
  | env :: _ =>
    let path := heartbeatEndpoint p.accountID
    let d := doCall p path "POST" true false "" env
    some { resp := none, err := d.err, attempts := 1, sents := [d.sent],
           ceiling := none }

/-- `GetTaskEvents`: allocates a fresh `TaskEventsResponse` (zero value,
modelled `""`), a single `do` with GET and nil input, no retry, returning
the allocated struct unconditionally. -/
def GetTaskEvents (p : HTTPClient) (id : String) (envs : List AttemptEnv) :
    Option EndpointResult :=
  match envs with
  | [] => none
  | env :: _ =>
    let path := taskPollEndpoint id p.accountID
    let events := ""
    let d := doCall p path "GET" false true events env
    some { resp := some d.outFinal, err := d.err, attempts := 1,
           sents := [d.sent], ceiling := none }

/-- `Acquire`: allocates a fresh `Task` (zero value, modelled `""`), a
single `do` with PUT and nil input, no retry, returning the allocated
struct unconditionally. -/
def Acquire (p : HTTPClient) (delegateID taskID : String)
    (envs : List AttemptEnv) : Option EndpointResult :=
  match envs with
  | [] => none
  | env :: _ =>
    let path := taskAcquireEndpoint delegateID taskID p.accountID delegateID
    let task := ""
    let d := doCall p path "PUT" false true task env
    some { resp := some d.outFinal, err := d.err, attempts := 1,
           sents := [d.sent], ceiling := none }

/-- `SendStatus`: `retry` with POST, no output value, and
`createBackoff(ctx, taskEventsTimeout)`. -/
def SendStatus (p : HTTPClient) (delegateID taskID : String)
    (envs : List AttemptEnv) (next : Nat → BackoffStep) :
    Option EndpointResult :=
  let path := taskStatusEndpoint taskID delegateID p.accountID
  let b := createBackoff taskEventsTimeout next
  match retry p path "POST" true false "" envs b.next with
  | none => none
  | some rr => some { resp := none, err := rr.err, attempts := rr.attempts,
                      sents := rr.sents, ceiling := some b.maxElapsedTime }

/-! ### Concrete fixtures used by the witnesses -/

/-- A sample client configuration. -/
def pW : HTTPClient := { endpoint := "https://manager.example", accountID := "acct1" }

/-- An attempt whose transport answers with the given outcome and whose
other effects all succeed. -/
def envNet (out : NetOutcome) : AttemptEnv :=
  { encode := .ok "payload", newReqErr := none, token := .ok "tok0",
    net := fun _ => out, readErr := none,
    unmarshal := fun s => .ok ("decoded " ++ s),
    outOnDecodeErr := "partial", ctxErr := none }

/-- An attempt answered with the given status code and body. -/
def envStatus (code : Nat) (body : String) : AttemptEnv :=
  envNet (.ok { statusCode := code, body := body })

/-- The request `doCall` builds for `pW` and path `"/p"` with the fixture
token. -/
def reqW : Request :=
  { method := "POST", url := "https://manager.example/p", body := "payload",
    headers := [("Authorization", "Delegate tok0"),
                ("Content-Type", "application/json")] }

/-- The retry result of a 503 attempt followed by a 200 attempt. -/
def rrWtwo : RetryResult :=
  { attempts := 2, res := some { statusCode := 200, body := "yes" },
    err := none, sents := [some reqW, some reqW], outFinal := "" }

/-! ### Generic lemmas about the retry loop -/

/-- Every terminating run of the retry loop makes at least one attempt. -/
lemma retry_attempts_pos (p : HTTPClient) (path method : String)
    (hasIn outReq : Bool) (outInit : String) (envs : List AttemptEnv)
    (boff : Nat → BackoffStep) (rr : RetryResult)
    (h : retry p path method hasIn outReq outInit envs boff = some rr) :
    1 ≤ rr.attempts := by
  cases envs with
  | nil => simp [retry] at h
  | cons env rest =>
    simp only [retry] at h
    split at h
    · cases h; simp
    · split at h
      · split at h
        · split at h
          · cases h; simp
          · split at h
            · exact absurd h (by simp)
            · cases h; simp
        · cases h; simp
      · split at h
        · split at h
          · cases h; simp
          · split at h
            · exact absurd h (by simp)
            · cases h; simp
        · cases h; simp

/-! ### Claims -/

/-- **C1.** The retry controller retries exactly the attempts whose response
has status code strictly greater than 501 or that produced no response
together with a non-nil error: (i) any attempt whose response has status
code at most 501 — in particular every code in `{500, 501}` and in
`[300, 499]` — terminates the loop after exactly one attempt, returning that
attempt's response and error unchanged; (ii) if the first attempt's response
has status code above 501 and the backoff has not yet signalled `Stop`, any
terminating run makes at least two attempts; (iii) likewise when the first
attempt produced no response and a non-nil (transport) error. -/
theorem retry_classifies_status (p : HTTPClient) (path method : String)
    (hasIn outReq : Bool) (outInit : String) (env : AttemptEnv)
    (rest : List AttemptEnv) (boff : Nat → BackoffStep)
    (hctx : env.ctxErr = none) :
    (∀ r, (doCall p path method hasIn outReq outInit env).res = some r →
      r.statusCode ≤ 501 →
      retry p path method hasIn outReq outInit (env :: rest) boff =
        some { attempts := 1,
               res := (doCall p path method hasIn outReq outInit env).res,
               err := (doCall p path method hasIn outReq outInit env).err,
               sents := [(doCall p path method hasIn outReq outInit env).sent],
               outFinal := (doCall p path method hasIn outReq outInit env).outFinal }) ∧
    (∀ r, (doCall p path method hasIn outReq outInit env).res = some r →
      501 < r.statusCode → boff 0 ≠ .stop →
      ∀ rr, retry p path method hasIn outReq outInit (env :: rest) boff = some rr →
        2 ≤ rr.attempts) ∧
    ((doCall p path method hasIn outReq outInit env).res = none →
      ((doCall p path method hasIn outReq outInit env).err).isSome →
      boff 0 ≠ .stop →
      ∀ rr, retry p path method hasIn outReq outInit (env :: rest) boff = some rr →
        2 ≤ rr.attempts) := by
  refine ⟨?_, ?_, ?_⟩
  · intro r hr hle
    simp only [retry, hctx, hr]
    rw [if_neg (by omega)]
  · intro r hr hgt hstop rr hrr
    simp only [retry, hctx, hr] at hrr
    rw [if_pos (by omega)] at hrr
    cases hb : boff 0 with
    | stop => exact absurd hb hstop
    | wait d =>
      simp only [hb] at hrr
      cases h2 : retry p path method hasIn outReq
          (doCall p path method hasIn outReq outInit env).outFinal rest
          (fun n => boff (n + 1)) with
      | none => simp [h2] at hrr
      | some rr2 =>
        simp only [h2, Option.some.injEq] at hrr
        subst hrr
        have hpos := retry_attempts_pos p path method hasIn outReq
          (doCall p path method hasIn outReq outInit env).outFinal rest
          (fun n => boff (n + 1)) rr2 h2
        show 2 ≤ rr2.attempts + 1
        omega
  · intro hres herr hstop rr hrr
    simp only [retry, hctx, hres] at hrr
    cases he : (doCall p path method hasIn outReq outInit env).err with
    | none => rw [he] at herr; simp at herr
    | some e =>
      simp only [he] at hrr
      cases hb : boff 0 with
      | stop => exact absurd hb hstop
      | wait d =>
        simp only [hb] at hrr
        cases h2 : retry p path method hasIn outReq
            (doCall p path method hasIn outReq outInit env).outFinal rest
            (fun n => boff (n + 1)) with
        | none => simp [h2] at hrr
        | some rr2 =>
          simp only [h2, Option.some.injEq] at hrr
          subst hrr
          have hpos := retry_attempts_pos p path method hasIn outReq
            (doCall p path method hasIn outReq outInit env).outFinal rest
            (fun n => boff (n + 1)) rr2 h2
          show 2 ≤ rr2.attempts + 1
          omega

/-- Witness for C1: a 500 response terminates after one attempt with the
body as error; a 503 response and a transport error each lead to a second
attempt. -/
theorem retry_classifies_status_witness :
    (retry pW "/p" "POST" true false "" [envStatus 500 "boom"]
        (fun _ => .wait 1) =
      some { attempts := 1, res := some { statusCode := 500, body := "boom" },
             err := some "boom", sents := [some reqW], outFinal := "" }) ∧
    2 ≤ rrWtwo.attempts ∧ 2 ≤ rrWtwo.attempts :=
  ⟨(retry_classifies_status pW "/p" "POST" true false ""
      (envStatus 500 "boom") [] (fun _ => .wait 1) rfl).1
      { statusCode := 500, body := "boom" } rfl (by decide),
   (retry_classifies_status pW "/p" "POST" true false ""
      (envStatus 503 "bad") [envStatus 200 "yes"] (fun _ => .wait 1) rfl).2.1
      { statusCode := 503, body := "bad" } rfl (by decide) (by decide)
      rrWtwo (by decide),
   (retry_classifies_status pW "/p" "POST" true false ""
      (envNet (.fail "conn refused")) [envStatus 200 "yes"]
      (fun _ => .wait 1) rfl).2.2 rfl rfl (by decide) rrWtwo (by decide)⟩

/-- A successful 200 attempt whose surrounding `ctx.Err()` check observes a
cancellation. -/
def envCancelled : AttemptEnv :=
  { envStatus 200 "yes" with ctxErr := some "context canceled" }

/-- **C2.** Cancellation wins over every other classification: (i) if the
cancellation scope is observed terminated right after an attempt, the loop
returns at once with the cancellation error as the terminal error,
whatever the attempt's own response or error was; (ii) in particular, when
an attempt is retryable (status above 501) and the scope is cancelled
during the backoff sleep, the very next attempt's check observes the
cancellation and the loop returns it as the terminal error after exactly
two attempts — the cancelled attempt is never classified as retryable
again. -/
theorem retry_cancellation_wins (p : HTTPClient) (path method : String)
    (hasIn outReq : Bool) (outInit : String) (env : AttemptEnv)
    (rest : List AttemptEnv) (boff : Nat → BackoffStep) :
    (∀ ce, env.ctxErr = some ce →
      retry p path method hasIn outReq outInit (env :: rest) boff =
        some { attempts := 1,
               res := (doCall p path method hasIn outReq outInit env).res,
               err := some ce,
               sents := [(doCall p path method hasIn outReq outInit env).sent],
               outFinal := (doCall p path method hasIn outReq outInit env).outFinal }) ∧
    (∀ ce env2 rest2 r dur, rest = env2 :: rest2 →
      env.ctxErr = none →
      (doCall p path method hasIn outReq outInit env).res = some r →
      501 < r.statusCode →
      boff 0 = .wait dur →
      env2.ctxErr = some ce →
      retry p path method hasIn outReq outInit (env :: rest) boff =
        some { attempts := 2,
               res := (doCall p path method hasIn outReq
                 (doCall p path method hasIn outReq outInit env).outFinal env2).res,
               err := some ce,
               sents := [(doCall p path method hasIn outReq outInit env).sent,
                 (doCall p path method hasIn outReq
                   (doCall p path method hasIn outReq outInit env).outFinal env2).sent],
               outFinal := (doCall p path method hasIn outReq
                 (doCall p path method hasIn outReq outInit env).outFinal env2).outFinal }) := by
  constructor
  · intro ce hctx
    simp only [retry, hctx]
  · intro ce env2 rest2 r dur hrest hctx hr hgt hb hctx2
    subst hrest
    simp only [retry, hctx, hr, hb, hctx2]
    rw [if_pos (by omega)]

/-- Witness for C2: a cancellation observed after a successful attempt is
returned as the error, and a cancellation observed right after the backoff
sleep of a retryable 503 attempt terminates the loop at the second attempt
with the cancellation error. -/
theorem retry_cancellation_wins_witness :
    (retry pW "/p" "POST" true false "" [envCancelled] (fun _ => .wait 1) =
      some { attempts := 1, res := some { statusCode := 200, body := "yes" },
             err := some "context canceled", sents := [some reqW],
             outFinal := "" }) ∧
    (retry pW "/p" "POST" true false "" [envStatus 503 "bad", envCancelled]
        (fun _ => .wait 1) =
      some { attempts := 2, res := some { statusCode := 200, body := "yes" },
             err := some "context canceled", sents := [some reqW, some reqW],
             outFinal := "" }) :=
  ⟨(retry_cancellation_wins pW "/p" "POST" true false "" envCancelled []
      (fun _ => .wait 1)).1 "context canceled" rfl,
   (retry_cancellation_wins pW "/p" "POST" true false "" (envStatus 503 "bad")
      [envCancelled] (fun _ => .wait 1)).2 "context canceled" envCancelled []
      { statusCode := 503, body := "bad" } 1 rfl rfl rfl (by decide) rfl rfl⟩

/-- **C3.** When an attempt is retryable — a response with status above 501,
or no response together with a non-nil error — and `NextBackOff` answers
`Stop` (the elapsed-time budget is exhausted), the loop terminates after
that single further attempt and returns the attempt's error (with a nil
response) instead of retrying. -/
theorem retry_stop_returns_last_error (p : HTTPClient) (path method : String)
    (hasIn outReq : Bool) (outInit : String) (env : AttemptEnv)
    (rest : List AttemptEnv) (boff : Nat → BackoffStep)
    (hctx : env.ctxErr = none) :
    (∀ r, (doCall p path method hasIn outReq outInit env).res = some r →
      501 < r.statusCode → boff 0 = .stop →
      retry p path method hasIn outReq outInit (env :: rest) boff =
        some { attempts := 1, res := none,
               err := (doCall p path method hasIn outReq outInit env).err,
               sents := [(doCall p path method hasIn outReq outInit env).sent],
               outFinal := (doCall p path method hasIn outReq outInit env).outFinal }) ∧
    ((doCall p path method hasIn outReq outInit env).res = none →
      ((doCall p path method hasIn outReq outInit env).err).isSome →
      boff 0 = .stop →
      retry p path method hasIn outReq outInit (env :: rest) boff =
        some { attempts := 1, res := none,
               err := (doCall p path method hasIn outReq outInit env).err,
               sents := [(doCall p path method hasIn outReq outInit env).sent],
               outFinal := (doCall p path method hasIn outReq outInit env).outFinal }) := by
  constructor
  · intro r hr hgt hb
    simp only [retry, hctx, hr, hb]
    rw [if_pos (by omega)]
  · intro hres herr hb
    obtain ⟨e, he⟩ := Option.isSome_iff_exists.mp herr
    simp only [retry, hctx, hres, hb, he]

/-- Witness for C3: with an exhausted backoff, a 503 attempt and a
transport-error attempt each return the attempt's own error with a nil
response after one attempt. -/
theorem retry_stop_returns_last_error_witness :
    (retry pW "/p" "POST" true false "" [envStatus 503 "bad"]
        (fun _ => .stop) =
      some { attempts := 1, res := none, err := some "bad",
             sents := [some reqW], outFinal := "" }) ∧
    (retry pW "/p" "POST" true false "" [envNet (.fail "conn refused")]
        (fun _ => .stop) =
      some { attempts := 1, res := none, err := some "conn refused",
             sents := [some reqW], outFinal := "" }) :=
  ⟨(retry_stop_returns_last_error pW "/p" "POST" true false ""
      (envStatus 503 "bad") [] (fun _ => .stop) rfl).1
      { statusCode := 503, body := "bad" } rfl (by decide) rfl,
   (retry_stop_returns_last_error pW "/p" "POST" true false ""
      (envNet (.fail "conn refused")) [] (fun _ => .stop) rfl).2
      rfl rfl rfl⟩

/-- A string of length zero is the empty string. -/
lemma string_length_eq_zero (s : String) : s.length = 0 ↔ s = "" := by
  constructor
  · intro h
    cases s with
    | mk data =>
      cases data with
      | nil => rfl
      | cons c cs => simp [String.length] at h
  · intro h
    subst h
    rfl

/-- Any request `doCall` hands to the transport has the canonical form:
method and URL from the call, body from the (possibly failed) encoding, and
exactly the Authorization and Content-Type headers built from the token the
credential supplier returned for this very attempt. -/
lemma doCall_sent_form (p : HTTPClient) (path method : String)
    (hasIn outReq : Bool) (outInit : String) (env : AttemptEnv) :
    (doCall p path method hasIn outReq outInit env).sent = none ∨
    ∃ token, env.token = .ok token ∧
      (doCall p path method hasIn outReq outInit env).sent = some
        { method := method, url := p.endpoint ++ path,
          body := if hasIn then (match env.encode with
            | .ok s => s
            | .error _ => "") else "",
          headers := [("Authorization", "Delegate " ++ token),
                      ("Content-Type", "application/json")] } := by
  simp only [doCall]
  split
  · exact Or.inl rfl
  · split
    · exact Or.inl rfl
    · rename_i token htok
      refine Or.inr ⟨token, htok, ?_⟩
      repeat' split
      all_goals rfl

/-- **C4.** If the credential supplier's get-current-token operation fails,
`do` returns that credential error at once and no network request is sent
in that attempt (the `sent` field is `none`), for every operation. -/
theorem do_credential_error_no_request (p : HTTPClient) (path method : String)
    (hasIn outReq : Bool) (outInit : String) (env : AttemptEnv) (e : String)
    (hnr : env.newReqErr = none) (htok : env.token = .error e) :
    doCall p path method hasIn outReq outInit env =
      { res := none, err := some e, sent := none, readFull := false,
        outFinal := outInit } := by
  simp only [doCall, hnr, htok]

/-- A failing credential supplier. -/
def envBadToken : AttemptEnv :=
  { envStatus 200 "yes" with token := .error "token mint failed" }

/-- Witness for C4: a token-mint failure surfaces as the call's error with
no request sent. -/
theorem do_credential_error_no_request_witness :
    doCall pW "/p" "POST" true false "" envBadToken =
      { res := none, err := some "token mint failed", sent := none,
        readFull := false, outFinal := "" } :=
  do_credential_error_no_request pW "/p" "POST" true false "" envBadToken
    "token mint failed" rfl rfl

/-- **C5.** A failure to serialize a non-nil input payload does not fail
the call: the attempt behaves exactly as if the payload had encoded to the
empty string (the error is only logged), and any request actually sent in
that attempt goes out with an empty body. -/
theorem do_encode_error_soft (p : HTTPClient) (path method : String)
    (outReq : Bool) (outInit : String) (env : AttemptEnv) (e : String)
    (henc : env.encode = .error e) :
    (doCall p path method true outReq outInit env =
      doCall p path method true outReq outInit
        { env with encode := .ok "" }) ∧
    (∀ req, (doCall p path method true outReq outInit env).sent = some req →
      req.body = "") := by
  constructor
  · simp only [doCall, henc]
  · intro req hreq
    rcases doCall_sent_form p path method true outReq outInit env with
      h | ⟨tok, -, h⟩
    · rw [h] at hreq; cases hreq
    · rw [h] at hreq
      cases hreq
      simp [henc]

/-- A failing input serializer. -/
def envBadEncode : AttemptEnv :=
  { envStatus 200 "yes" with encode := .error "unsupported type" }

/-- The request of the fixture attempt when the body encodes to nothing. -/
def reqWempty : Request := { reqW with body := "" }

/-- Witness for C5: with a failing serializer the attempt equals the
empty-body attempt, and the request it sends has an empty body. -/
theorem do_encode_error_soft_witness :
    (doCall pW "/p" "POST" true false "" envBadEncode =
      doCall pW "/p" "POST" true false ""
        { envBadEncode with encode := .ok "" }) ∧
    reqWempty.body = "" :=
  ⟨(do_encode_error_soft pW "/p" "POST" false "" envBadEncode
      "unsupported type" rfl).1,
   (do_encode_error_soft pW "/p" "POST" false "" envBadEncode
      "unsupported type" rfl).2 reqWempty rfl⟩

/-- **C6.** A 204 response short-circuits `do`: the call returns success
(nil error) without running `io.ReadAll` on the body and without touching
the caller's output value, even when an output shape was requested. -/
theorem do_204_no_decode (p : HTTPClient) (path method : String)
    (hasIn outReq : Bool) (outInit : String) (env : AttemptEnv) (r : Response)
    (hr : (doCall p path method hasIn outReq outInit env).res = some r)
    (h204 : r.statusCode = 204) :
    (doCall p path method hasIn outReq outInit env).err = none ∧
    (doCall p path method hasIn outReq outInit env).readFull = false ∧
    (doCall p path method hasIn outReq outInit env).outFinal = outInit := by
  simp only [doCall] at hr ⊢
  repeat' split at hr
  all_goals simp_all

/-- Witness for C6: a 204 answer leaves the requested output value at its
initial contents and returns no error. -/
theorem do_204_no_decode_witness :
    (doCall pW "/p" "POST" true true "init" (envStatus 204 "ignored")).err =
      none ∧
    (doCall pW "/p" "POST" true true "init"
      (envStatus 204 "ignored")).readFull = false ∧
    (doCall pW "/p" "POST" true true "init"
      (envStatus 204 "ignored")).outFinal = "init" :=
  do_204_no_decode pW "/p" "POST" true true "init" (envStatus 204 "ignored")
    { statusCode := 204, body := "ignored" } rfl rfl

/-- **C7.** For a response with status code above 299 (a 204 has status at
most 299, so it is excluded) whose body was read successfully, `do` returns
an error that is exactly the raw body text when the body is non-empty, and
exactly Go's standard reason phrase for the status code when the body is
empty. -/
theorem do_error_message_from_body (p : HTTPClient) (path method : String)
    (hasIn outReq : Bool) (outInit : String) (env : AttemptEnv) (r : Response)
    (hr : (doCall p path method hasIn outReq outInit env).res = some r)
    (hgt : 299 < r.statusCode) (hread : env.readErr = none) :
    (r.body ≠ "" →
      (doCall p path method hasIn outReq outInit env).err = some r.body) ∧
    (r.body = "" →
      (doCall p path method hasIn outReq outInit env).err =
        some (statusText r.statusCode)) := by
  simp only [doCall] at hr ⊢
  repeat' split at hr
  all_goals simp_all [string_length_eq_zero]

/-- Witness for C7: a 404 with body `"oops"` surfaces `"oops"`, and a 404
with an empty body surfaces the reason phrase `"Not Found"`. -/
theorem do_error_message_from_body_witness :
    (doCall pW "/p" "POST" true false "" (envStatus 404 "oops")).err =
      some "oops" ∧
    (doCall pW "/p" "POST" true false "" (envStatus 404 "")).err =
      some "Not Found" :=
  ⟨(do_error_message_from_body pW "/p" "POST" true false ""
      (envStatus 404 "oops") { statusCode := 404, body := "oops" }
      rfl (by decide) rfl).1 (by decide),
   (do_error_message_from_body pW "/p" "POST" true false ""
      (envStatus 404 "") { statusCode := 404, body := "" }
      rfl (by decide) rfl).2 rfl⟩


/-- Each terminating run of the retry loop produces one `sents` entry per
attempt, and the `i`-th entry is exactly what `do` sent for the `i`-th
supplied attempt environment (with the output value threaded through). -/
lemma retry_sents_align (p : HTTPClient) (path method : String)
    (hasIn outReq : Bool) :
    ∀ (envs : List AttemptEnv) (outInit : String) (boff : Nat → BackoffStep)
      (rr : RetryResult),
      retry p path method hasIn outReq outInit envs boff = some rr →
      rr.sents.length = rr.attempts ∧
      ∀ i, i < rr.sents.length →
        ∃ env outInit2, envs.get? i = some env ∧
          rr.sents.get? i =
            some ((doCall p path method hasIn outReq outInit2 env).sent) := by
  intro envs
  induction envs with
  | nil => intro outInit boff rr h; simp [retry] at h
  | cons env rest ih =>
    intro outInit boff rr h
    simp only [retry] at h
    split at h
    · cases h
      refine ⟨rfl, ?_⟩
      intro i hi
      cases i with
      | zero => exact ⟨env, outInit, rfl, rfl⟩
      | succ j => simp at hi
    · split at h
      · split at h
        · split at h
          · cases h
            refine ⟨rfl, ?_⟩
            intro i hi
            cases i with
            | zero => exact ⟨env, outInit, rfl, rfl⟩
            | succ j => simp at hi
          · split at h
            · exact absurd h (by simp)
            · rename_i rr2 h2
              cases h
              obtain ⟨hlen, halign⟩ := ih _ _ rr2 h2
              refine ⟨by simp [hlen], ?_⟩
              intro i hi
              cases i with
              | zero => exact ⟨env, outInit, rfl, rfl⟩
              | succ j =>
                obtain ⟨env2, oi2, h3, h4⟩ := halign j (by simpa using hi)
                exact ⟨env2, oi2, h3, h4⟩
        · cases h
          refine ⟨rfl, ?_⟩
          intro i hi
          cases i with
          | zero => exact ⟨env, outInit, rfl, rfl⟩
          | succ j => simp at hi
      · split at h
        · split at h
          · cases h
            refine ⟨rfl, ?_⟩
            intro i hi
            cases i with
            | zero => exact ⟨env, outInit, rfl, rfl⟩
            | succ j => simp at hi
          · split at h
            · exact absurd h (by simp)
            · rename_i rr2 h2
              cases h
              obtain ⟨hlen, halign⟩ := ih _ _ rr2 h2
              refine ⟨by simp [hlen], ?_⟩
              intro i hi
              cases i with
              | zero => exact ⟨env, outInit, rfl, rfl⟩
              | succ j =>
                obtain ⟨env2, oi2, h3, h4⟩ := halign j (by simpa using hi)
                exact ⟨env2, oi2, h3, h4⟩
        · cases h
          refine ⟨rfl, ?_⟩
          intro i hi
          cases i with
          | zero => exact ⟨env, outInit, rfl, rfl⟩
          | succ j => simp at hi


/-- **C8.** One credential fetch per attempt, never cached: a terminating
run of the retry loop has exactly one sent-request slot per attempt, and
every request actually sent on attempt `i` carries exactly the headers
`Authorization: Delegate <token>` and `Content-Type: application/json`,
where `<token>` is the token the credential supplier returned on attempt
`i`'s own `Get` call. -/
theorem retry_fresh_token_headers (p : HTTPClient) (path method : String)
    (hasIn outReq : Bool) (outInit : String) (envs : List AttemptEnv)
    (boff : Nat → BackoffStep) (rr : RetryResult)
    (h : retry p path method hasIn outReq outInit envs boff = some rr) :
    rr.sents.length = rr.attempts ∧
    ∀ i req, rr.sents.get? i = some (some req) →
      ∃ env token, envs.get? i = some env ∧ env.token = .ok token ∧
        req.headers = [("Authorization", "Delegate " ++ token),
                       ("Content-Type", "application/json")] := by
  obtain ⟨hlen, halign⟩ :=
    retry_sents_align p path method hasIn outReq envs outInit boff rr h
  refine ⟨hlen, ?_⟩
  intro i req hreq
  have hi : i < rr.sents.length := by
    by_contra hni
    rw [List.get?_eq_none.mpr (by omega)] at hreq
    cases hreq
  obtain ⟨env, oi2, henv, hsent⟩ := halign i hi
  rw [hreq] at hsent
  have hs : (doCall p path method hasIn outReq oi2 env).sent = some req :=
    (Option.some.inj hsent).symm
  rcases doCall_sent_form p path method hasIn outReq oi2 env with
    hn | ⟨token, htok, hform⟩
  · rw [hn] at hs; cases hs
  · rw [hform] at hs
    cases Option.some.inj hs
    exact ⟨env, token, henv, htok, rfl⟩

/-- Attempts whose credential supplier returns different tokens. -/
def envTokA : AttemptEnv := { envStatus 503 "bad" with token := .ok "tokA" }

def envTokB : AttemptEnv := { envStatus 200 "yes" with token := .ok "tokB" }

/-- The requests the two fixture attempts send. -/
def reqTokA : Request := { reqW with headers :=
  [("Authorization", "Delegate tokA"), ("Content-Type", "application/json")] }

def reqTokB : Request := { reqW with headers :=
  [("Authorization", "Delegate tokB"), ("Content-Type", "application/json")] }

/-- The run: a retried 503 under token `tokA`, then a 200 under `tokB`. -/
def rrWfresh : RetryResult :=
  { attempts := 2, res := some { statusCode := 200, body := "yes" },
    err := none, sents := [some reqTokA, some reqTokB], outFinal := "" }

/-- Witness for C8: in a two-attempt run where the supplier rotates the
token from `tokA` to `tokB`, the first request carries `Delegate tokA` and
the second `Delegate tokB`. -/
theorem retry_fresh_token_headers_witness :
    rrWfresh.sents.length = rrWfresh.attempts ∧
    (∃ env token, [envTokA, envTokB].get? 0 = some env ∧
      env.token = .ok token ∧
      reqTokA.headers = [("Authorization", "Delegate " ++ token),
                         ("Content-Type", "application/json")]) ∧
    (∃ env token, [envTokA, envTokB].get? 1 = some env ∧
      env.token = .ok token ∧
      reqTokB.headers = [("Authorization", "Delegate " ++ token),
                         ("Content-Type", "application/json")]) :=
  ⟨(retry_fresh_token_headers pW "/p" "POST" true false "" [envTokA, envTokB]
      (fun _ => .wait 1) rrWfresh (by decide)).1,
   (retry_fresh_token_headers pW "/p" "POST" true false "" [envTokA, envTokB]
      (fun _ => .wait 1) rrWfresh (by decide)).2 0 reqTokA rfl,
   (retry_fresh_token_headers pW "/p" "POST" true false "" [envTokA, envTokB]
      (fun _ => .wait 1) rrWfresh (by decide)).2 1 reqTokB rfl⟩



/-- A retryable first attempt (status above 501) with a non-`Stop` backoff
forces any terminating run of the loop to make at least two attempts. -/
lemma retry_gt501_two_attempts (p : HTTPClient) (path method : String)
    (hasIn outReq : Bool) (outInit : String) (env : AttemptEnv)
    (rest : List AttemptEnv) (boff : Nat → BackoffStep) (r : Response)
    (hctx : env.ctxErr = none)
    (hr : (doCall p path method hasIn outReq outInit env).res = some r)
    (hgt : 501 < r.statusCode) (hstop : boff 0 ≠ .stop) (rr : RetryResult)
    (hrr : retry p path method hasIn outReq outInit (env :: rest) boff =
      some rr) :
    2 ≤ rr.attempts := by
  simp only [retry, hctx, hr] at hrr
  rw [if_pos (by omega)] at hrr
  cases hb : boff 0 with
  | stop => exact absurd hb hstop
  | wait d =>
    simp only [hb] at hrr
    cases h2 : retry p path method hasIn outReq
        (doCall p path method hasIn outReq outInit env).outFinal rest
        (fun n => boff (n + 1)) with
    | none => simp [h2] at hrr
    | some rr2 =>
      simp only [h2, Option.some.injEq] at hrr
      subst hrr
      have hpos := retry_attempts_pos p path method hasIn outReq
        (doCall p path method hasIn outReq outInit env).outFinal rest
        (fun n => boff (n + 1)) rr2 h2
      show 2 ≤ rr2.attempts + 1
      omega

/-- **C9.** Of the five protocol endpoints, exactly `Register` and
`SendStatus` route through the retry controller: `Register` builds its
backoff with the short ceiling `registerTimeout` and `SendStatus` with the
strictly longer `taskEventsTimeout`, and both genuinely retry (a retryable
first outcome forces at least two attempts); `Heartbeat`, `GetTaskEvents`
and `Acquire` invoke the executor exactly once, with no backoff at all,
whatever the outcome. -/
theorem endpoints_routing :
    (∀ p envs next er, Register p envs next = some er →
      er.ceiling = some registerTimeout) ∧
    (∀ p delegateID taskID envs next er,
      SendStatus p delegateID taskID envs next = some er →
      er.ceiling = some taskEventsTimeout) ∧
    registerTimeout < taskEventsTimeout ∧
    (∀ p envs er, Heartbeat p envs = some er →
      er.attempts = 1 ∧ er.ceiling = none) ∧
    (∀ p id envs er, GetTaskEvents p id envs = some er →
      er.attempts = 1 ∧ er.ceiling = none) ∧
    (∀ p delegateID taskID envs er,
      Acquire p delegateID taskID envs = some er →
      er.attempts = 1 ∧ er.ceiling = none) ∧
    (∀ p env rest next er r, env.ctxErr = none →
      (doCall p (registerEndpoint p.accountID) "POST" true true "" env).res =
        some r →
      501 < r.statusCode → next 0 ≠ .stop →
      Register p (env :: rest) next = some er → 2 ≤ er.attempts) ∧
    (∀ p delegateID taskID env rest next er r, env.ctxErr = none →
      (doCall p (taskStatusEndpoint taskID delegateID p.accountID) "POST"
        true false "" env).res = some r →
      501 < r.statusCode → next 0 ≠ .stop →
      SendStatus p delegateID taskID (env :: rest) next = some er →
      2 ≤ er.attempts) := by
  refine ⟨?_, ?_, by decide, ?_, ?_, ?_, ?_, ?_⟩
  · intro p envs next er h
    simp only [Register] at h
    split at h
    · cases h
    · cases h; rfl
  · intro p delegateID taskID envs next er h
    simp only [SendStatus] at h
    split at h
    · cases h
    · cases h; rfl
  · intro p envs er h
    simp only [Heartbeat] at h
    split at h
    · cases h
    · cases h; exact ⟨rfl, rfl⟩
  · intro p id envs er h
    simp only [GetTaskEvents] at h
    split at h
    · cases h
    · cases h; exact ⟨rfl, rfl⟩
  · intro p delegateID taskID envs er h
    simp only [Acquire] at h
    split at h
    · cases h
    · cases h; exact ⟨rfl, rfl⟩
  · intro p env rest next er r hctx hr hgt hstop her
    simp only [Register] at her
    split at her
    · cases her
    · rename_i rr h2
      cases her
      exact retry_gt501_two_attempts p (registerEndpoint p.accountID) "POST"
        true true "" env rest _ r hctx hr hgt hstop rr h2
  · intro p delegateID taskID env rest next er r hctx hr hgt hstop her
    simp only [SendStatus] at her
    split at her
    · cases her
    · rename_i rr h2
      cases her
      exact retry_gt501_two_attempts p
        (taskStatusEndpoint taskID delegateID p.accountID) "POST"
        true false "" env rest _ r hctx hr hgt hstop rr h2


/-- Concrete endpoint runs used by the witnesses. -/
def erDefault : EndpointResult :=
  { resp := none, err := none, attempts := 0, sents := [], ceiling := none }

def erRegOk : EndpointResult :=
  (Register pW [envStatus 200 "ok"] (fun _ => .wait 1)).getD erDefault

def erReg503 : EndpointResult :=
  (Register pW [envStatus 503 "bad", envStatus 200 "ok"]
    (fun _ => .wait 1)).getD erDefault

def erHeartbeat503 : EndpointResult :=
  (Heartbeat pW [envStatus 503 "bad"]).getD erDefault

def erPoll404 : EndpointResult :=
  (GetTaskEvents pW "id1" [envStatus 404 "nope"]).getD erDefault

def erAcquire404 : EndpointResult :=
  (Acquire pW "d1" "t1" [envStatus 404 "nope"]).getD erDefault

def erStatus503 : EndpointResult :=
  (SendStatus pW "d1" "t1" [envStatus 503 "bad", envStatus 204 ""]
    (fun _ => .wait 1)).getD erDefault

/-- Witness for C9: on concrete runs, `Register` reports ceiling 30 and
`SendStatus` ceiling 60; a 503 makes them take two attempts, while
`Heartbeat`, `GetTaskEvents` and `Acquire` stay at one attempt even on a
503 or 404. -/
theorem endpoints_routing_witness :
    erRegOk.ceiling = some registerTimeout ∧
    erStatus503.ceiling = some taskEventsTimeout ∧
    (erHeartbeat503.attempts = 1 ∧ erHeartbeat503.ceiling = none) ∧
    (erPoll404.attempts = 1 ∧ erPoll404.ceiling = none) ∧
    (erAcquire404.attempts = 1 ∧ erAcquire404.ceiling = none) ∧
    2 ≤ erReg503.attempts ∧
    2 ≤ erStatus503.attempts :=
  ⟨endpoints_routing.1 pW [envStatus 200 "ok"] (fun _ => .wait 1) erRegOk
      (by decide),
   endpoints_routing.2.1 pW "d1" "t1" [envStatus 503 "bad", envStatus 204 ""]
      (fun _ => .wait 1) erStatus503 (by decide),
   endpoints_routing.2.2.2.1 pW [envStatus 503 "bad"] erHeartbeat503
      (by decide),
   endpoints_routing.2.2.2.2.1 pW "id1" [envStatus 404 "nope"] erPoll404
      (by decide),
   endpoints_routing.2.2.2.2.2.1 pW "d1" "t1" [envStatus 404 "nope"]
      erAcquire404 (by decide),
   endpoints_routing.2.2.2.2.2.2.1 pW (envStatus 503 "bad")
      [envStatus 200 "ok"] (fun _ => .wait 1) erReg503
      { statusCode := 503, body := "bad" } rfl (by decide) (by decide)
      (by decide) (by decide),
   endpoints_routing.2.2.2.2.2.2.2 pW "d1" "t1" (envStatus 503 "bad")
      [envStatus 204 ""] (fun _ => .wait 1) erStatus503
      { statusCode := 503, body := "bad" } rfl (by decide) (by decide)
      (by decide) (by decide)⟩

/-- **C10.** `Register`, `GetTaskEvents` and `Acquire` always hand back
the response struct they allocated before the request — a non-nil pointer
(`resp` is `some _`) — whether or not the accompanying error is non-nil. -/
theorem endpoints_nonnil_structs :
    (∀ p envs next er, Register p envs next = some er → (er.resp).isSome) ∧
    (∀ p id envs er, GetTaskEvents p id envs = some er → (er.resp).isSome) ∧
    (∀ p delegateID taskID envs er,
      Acquire p delegateID taskID envs = some er → (er.resp).isSome) := by
  refine ⟨?_, ?_, ?_⟩
  · intro p envs next er h
    simp only [Register] at h
    split at h
    · cases h
    · cases h; rfl
  · intro p id envs er h
    simp only [GetTaskEvents] at h
    split at h
    · cases h
    · cases h; rfl
  · intro p delegateID taskID envs er h
    simp only [Acquire] at h
    split at h
    · cases h
    · cases h; rfl

/-- Witness for C10: runs that end in errors (a 503 exhausting into a
200, and 404s) still return allocated structs. -/
theorem endpoints_nonnil_structs_witness :
    (erReg503.resp).isSome ∧ (erPoll404.resp).isSome ∧
    (erAcquire404.resp).isSome :=
  ⟨endpoints_nonnil_structs.1 pW [envStatus 503 "bad", envStatus 200 "ok"]
      (fun _ => .wait 1) erReg503 (by decide),
   endpoints_nonnil_structs.2.1 pW "id1" [envStatus 404 "nope"] erPoll404
      (by decide),
   endpoints_nonnil_structs.2.2 pW "d1" "t1" [envStatus 404 "nope"]
      erAcquire404 (by decide)⟩


end Delegate
